import Mathlib

/-!
Verification of the Account Session Manager of node-red-contrib-eufy-security.

The definitions below are a shallow embedding of `src/lib/eufy-client.ts`
(class `EufyClientManager`) and of the event node's `handleEvent` filter
(`src/nodes` event node).  JavaScript `Map` objects are embedded as
association lists with `Map` semantics (`set` overwrites the existing entry
for a key, `delete` removes it); promises are embedded as explicit outcome
slots settled at most once; `async` control flow is embedded as explicit
step functions over the manager state driven by lists of observed events.
-/

namespace EufyModel

/-! ## Association-list embedding of the JavaScript Map -/

/-- `Map.set`: overwrite the entry for `k` if present, else append. -/
def mapSet {κ α : Type} [DecidableEq κ] : List (κ × α) → κ → α → List (κ × α)
  | [], k, v => [(k, v)]
  | (k', v') :: rest, k, v =>
    if k' = k then (k, v) :: rest else (k', v') :: mapSet rest k v

/-- `Map.get`: first entry for `k`, if any. -/
def assocGet {κ α : Type} [DecidableEq κ] : List (κ × α) → κ → Option α
  | [], _ => none
  | (k', v') :: rest, k => if k' = k then some v' else assocGet rest k

/-- `Map.delete`: remove the entry for `k`. -/
def mapDelete {κ α : Type} [DecidableEq κ] : List (κ × α) → κ → List (κ × α)
  | [], _ => []
  | (k', v') :: rest, k => if k' = k then rest else (k', v') :: mapDelete rest k

/-! ## Target Readiness Tracker (`stationReadyPromises`, lines 71-74, 252-257,
370-386 of `eufy-client.ts`)

Each `waitForStation` call that finds the station not yet connected creates a
promise, arms a timer, and stores the `resolve`/`reject` pair in the
`stationReadyPromises` map under the station serial, overwriting whatever
entry was there.  We identify each such call by a numeric waiter id, record
which serial it waited for, whether its promise is still pending, and whether
its timer is still armed. -/

/-- Settlement state of one `waitForStation` promise. -/
inductive WaitOutcome
  | pending
  | resolved
  | rejected
  deriving DecidableEq, Repr

/-- Waiter bookkeeping of the manager: the `stationReadyPromises` map maps a
station serial to the id of the waiter whose closures it currently holds;
`outcomes` tracks every waiter's promise; `timers` holds the waiter ids whose
`setTimeout` is still armed; `targets` records, per waiter, the serial it
registered for (history bookkeeping used only to state claims). -/
structure TrackerState where
  stationReadyPromises : List (String × Nat)
  outcomes : List (Nat × WaitOutcome)
  timers : List Nat
  targets : List (Nat × String)
  deriving DecidableEq, Repr

/-- A promise settles at most once: only a pending slot is written. -/
def settleOutcome (m : List (Nat × WaitOutcome)) (id : Nat) (o : WaitOutcome) :
    List (Nat × WaitOutcome) :=
  match assocGet m id with
  | some WaitOutcome.pending => mapSet m id o
  | _ => m

/-- Observable happenings that drive the waiter bookkeeping:
`waitForStationRegister serial id` is the registration step of a
`waitForStation(serial)` call (station not yet connected) identified as
waiter `id`; `stationConnect serial` is the `"station connect"` client event
(its waiter-resolution part); `stationTimeout serial id` is the firing of the
`setTimeout` armed by waiter `id`, which captured `serial`. -/
inductive TrackerEvent
  | waitForStationRegister (serial : String) (id : Nat)
  | stationConnect (serial : String)
  | stationTimeout (serial : String) (id : Nat)
  deriving DecidableEq, Repr

/-- One step of the waiter bookkeeping, translated from the source:
registration does `stationReadyPromises.set(serial, {resolve, reject})` and
arms a timer; `"station connect"` looks up the entry for the serial, calls
its `resolve` (which clears that waiter's timer and settles its promise) and
deletes the entry; a timeout firing (only possible while its timer is still
armed) deletes the entry stored under the serial it captured — whichever
waiter owns it now — and rejects its own promise. -/
def trackerStep (s : TrackerState) (e : TrackerEvent) : TrackerState :=
  match e with
  | .waitForStationRegister serial id =>
    { s with
      stationReadyPromises := mapSet s.stationReadyPromises serial id
      outcomes := mapSet s.outcomes id WaitOutcome.pending
      timers := id :: s.timers
      targets := mapSet s.targets id serial }
  | .stationConnect serial =>
    match assocGet s.stationReadyPromises serial with
    | some id =>
      { s with
        stationReadyPromises := mapDelete s.stationReadyPromises serial
        outcomes := settleOutcome s.outcomes id WaitOutcome.resolved
        timers := s.timers.erase id }
    | none => s
  | .stationTimeout serial id =>
    if id ∈ s.timers then
      { s with
        stationReadyPromises := mapDelete s.stationReadyPromises serial
        outcomes := settleOutcome s.outcomes id WaitOutcome.rejected
        timers := s.timers.erase id }
    else s

/-- Run the waiter bookkeeping from the empty state. -/
def trackerRun (es : List TrackerEvent) : TrackerState :=
  es.foldl trackerStep ⟨[], [], [], []⟩

/-- Claim C2 as stated: every waiter pending on a target when a ready signal
for that target arrives is resolved by that signal. -/
def claimC2 : Prop :=
  ∀ (es : List TrackerEvent) (serial : String) (id : Nat),
    assocGet (trackerRun es).targets id = some serial →
    assocGet (trackerRun es).outcomes id = some WaitOutcome.pending →
    assocGet (trackerStep (trackerRun es) (.stationConnect serial)).outcomes id
      = some WaitOutcome.resolved

/-- Claim C3 as stated: a waiter's timeout leaves every other waiter's
registration and outcome untouched, on the same or a different target. -/
def claimC3 : Prop :=
  ∀ (es : List TrackerEvent) (serial : String) (id : Nat)
    (serial2 : String) (id2 : Nat),
    id ∈ (trackerRun es).timers →
    id2 ≠ id →
    assocGet (trackerRun es).stationReadyPromises serial2 = some id2 →
    assocGet (trackerStep (trackerRun es) (.stationTimeout serial id)).stationReadyPromises
        serial2 = some id2 ∧
    assocGet (trackerStep (trackerRun es) (.stationTimeout serial id)).outcomes id2
      = assocGet (trackerRun es).outcomes id2

/-! ## Manager state and the Connection State Machine
(`EufyClientManager`, lines 66-195 and 462-489 of `eufy-client.ts`) -/

/-- One entry of `status.stations`. -/
structure StationInfo where
  serial : String
  name : String
  p2pConnected : Bool
  deriving DecidableEq, Repr

/-- The `status` field of the manager (`ConnectionStatus`). -/
structure ConnectionStatus where
  connected : Bool
  cloudConnected : Bool
  pushConnected : Bool
  stations : List StationInfo
  error : Option String
  deriving DecidableEq, Repr

/-- The mutable state of one `EufyClientManager`.  `client` records whether
the underlying `EufySecurity` client object exists (its internals are
external to this repository); `challengeRequested` is history bookkeeping
recording that a `"tfa request"` or `"captcha request"` signal was observed
and not yet answered — the source keeps no such field, which is exactly what
claim C6 is about. -/
structure ManagerState where
  client : Option Unit
  connecting : Bool
  status : ConnectionStatus
  tracker : TrackerState
  challengeRequested : Bool

/-- A manager state with no client, flags down, empty bookkeeping. -/
def mgr0 : ManagerState :=
  { client := none
    connecting := false
    status :=
      { connected := false, cloudConnected := false, pushConnected := false
        stations := [], error := none }
    tracker := ⟨[], [], [], []⟩
    challengeRequested := false }

/-- Result of an `async` method as seen by its caller. -/
inductive ConnectResult
  | success
  | failure (msg : String)
  deriving DecidableEq, Repr

/-- Environment of one underlying connection attempt: what the external
`EufySecurity` client does once `connect()` passes its guards.  `initFail`
is a rejection of the initial client setup; `ack` is the `"connect"` event
arriving within the 30 s window; `connError` is a `"connection error"`
event; `timeout` is neither arriving in time. -/
inductive ConnectEnv
  | initFail (msg : String)
  | ack
  | connError (msg : String)
  | timeout
  deriving DecidableEq, Repr

/-- The guard section of `connect()`: return `none` (early fulfilment with
`undefined`) while `connecting` is set, or while the client exists and the
status says connected; otherwise raise the `connecting` flag and proceed. -/
def connectBegin (s : ManagerState) : Option ManagerState :=
  if s.connecting then none
  else if s.client.isSome && s.status.connected then none
  else some { s with connecting := true }

/-- The `try` block of `connect()` after `connecting` was set: set up the
client, then settle on the attempt's outcome.  On `ack` the handler marks
`cloudConnected` and `connected` and the call fulfils; on any rejection the
`catch` block records `status.error` and rethrows. -/
def connectTryBody (s : ManagerState) (env : ConnectEnv) :
    ConnectResult × ManagerState :=
  match env with
  | .initFail msg =>
    (.failure msg, { s with status := { s.status with error := some msg } })
  | .ack =>
    (.success,
      { s with client := some ()
               status := { s.status with cloudConnected := true, connected := true } })
  | .connError msg =>
    (.failure msg,
      { s with client := some (), status := { s.status with error := some msg } })
  | .timeout =>
    (.failure "Connection timeout",
      { s with client := some ()
               status := { s.status with error := some "Connection timeout" } })

/-- The `finally` block of `connect()`: `this.connecting = false`. -/
def connectFinally (p : ConnectResult × ManagerState) :
    ConnectResult × ManagerState :=
  (p.1, { p.2 with connecting := false })

/-- `connect()` as a whole: early return (fulfilling with `undefined`, i.e.
success) when `connecting` is set or when the client exists and the status
is connected; otherwise run the attempt with the `finally` block applied. -/
def connect (s : ManagerState) (env : ConnectEnv) :
    ConnectResult × ManagerState :=
  match connectBegin s with
  | none => (.success, s)
  | some s1 => connectFinally (connectTryBody s1 env)

/-- `connectWith2FA(code)`: throw if no client, else forward the code to the
underlying `client.connect({verifyCode: code, force: false})`.  The returned
`ok` value is the forwarded code. -/
def connectWith2FA (s : ManagerState) (code : String) : Except String String :=
  match s.client with
  | none => .error "Client not initialized"
  | some _ => .ok code

/-- `connectWithCaptcha(captchaId, captchaCode)`: throw if no client, else
forward both strings to the underlying client. -/
def connectWithCaptcha (s : ManagerState) (captchaId captchaCode : String) :
    Except String (String × String) :=
  match s.client with
  | none => .error "Client not initialized"
  | some _ => .ok (captchaId, captchaCode)

/-- `close()`: dispose the client reference and reset the status flags and
station list.  Translated verbatim from lines 479-488; note it touches
neither `stationReadyPromises` nor any timer. -/
def close (s : ManagerState) : ManagerState :=
  { s with
    client := none
    status := { s.status with
                connected := false, cloudConnected := false
                pushConnected := false, stations := [] } }

/-- Claim C4 as stated: a `connect()` call during an in-flight connect
returns that attempt's own result (first conjunct), and a `connect()` call
while connected is a no-op success (second conjunct). -/
def claimC4 : Prop :=
  (∀ (s : ManagerState) (env : ConnectEnv), s.connecting = true →
      (connect s env).1 = (connectTryBody s env).1) ∧
  (∀ (s : ManagerState) (env : ConnectEnv), s.connecting = false →
      s.client.isSome = true → s.status.connected = true →
      connect s env = (.success, s))

/-- Claim C5 as stated: `close()` settles every pending readiness wait with
a rejection (the cancellation error) and clears all timers. -/
def claimC5 : Prop :=
  ∀ (s : ManagerState) (id : Nat),
    assocGet s.tracker.outcomes id = some WaitOutcome.pending →
    assocGet (close s).tracker.outcomes id = some WaitOutcome.rejected ∧
      (close s).tracker.timers = []

/-- Claim C6 as stated: with no challenge pending, a submitted two-factor
code is never forwarded to the underlying client (the call fails with an
invalid-state error instead). -/
def claimC6 : Prop :=
  ∀ (s : ManagerState) (code : String),
    s.challengeRequested = false →
    ∀ c, connectWith2FA s code ≠ Except.ok c

/-- A manager whose `connecting` flag is up (an attempt is in flight). -/
def mgrConnecting : ManagerState := { mgr0 with connecting := true }

/-- A manager with an underlying client object and no pending challenge. -/
def mgrClient : ManagerState := { mgr0 with client := some () }

/-- A manager with an initialized client and one pending readiness waiter
(waiter 0 on station "S1"). -/
def mgrPending : ManagerState :=
  { mgr0 with client := some ()
              tracker := trackerRun [.waitForStationRegister "S1" 0] }

/-! ## Command Correlator (`setSnooze`, lines 424-460 of `eufy-client.ts`)

`setSnooze` registers a fresh one-shot `"station command result"` listener,
then calls `station.snooze(...)` immediately; it keeps no per-session record
of outstanding commands.  We track the set of registered one-shot listeners
(in registration order), each command's result slot, and each command's
armed 10 s timer, together with the trace of externally visible actions. -/

/-- Externally visible actions of `setSnooze`'s dispatch section. -/
inductive CorrAction
  | addResultListener (id : Nat)
  | stationSnooze (serial : String)
  deriving DecidableEq, Repr

/-- Correlator state: `listeners` holds the ids of commands whose one-shot
`"station command result"` listener is currently registered; `outcomes` maps
a command id to `none` while unresolved and `some b` once resolved with
success flag `b`; `timers` holds the command ids whose 10 s timer is armed. -/
structure CorrState where
  listeners : List Nat
  outcomes : List (Nat × Option Bool)
  timers : List Nat
  deriving DecidableEq, Repr

/-- Resolve a command's slot (a promise resolves at most once). -/
def resolveCmd (m : List (Nat × Option Bool)) (id : Nat) (b : Bool) :
    List (Nat × Option Bool) :=
  match assocGet m id with
  | some none => mapSet m id (some b)
  | _ => m

/-- Happenings that drive the correlator: `setSnoozeDispatch id serial` is
the dispatch section of a `setSnooze` call (after its readiness wait) for
command `id` on station `serial`; `stationCommandResult rc` is a
`"station command result"` event with `return_code = rc` on the shared
stream; `commandTimeout id` is the firing of command `id`'s 10 s timer. -/
inductive CorrEvent
  | setSnoozeDispatch (id : Nat) (serial : String)
  | stationCommandResult (rc : Int)
  | commandTimeout (id : Nat)
  deriving DecidableEq, Repr

/-- One correlator step, translated from the source.  Dispatch registers the
listener and snoozes unconditionally — no check of `listeners`.  A result
event fires every currently registered one-shot listener (the emitter
iterates over a snapshot): each clears its own timer, removes itself and
resolves its command with `rc == 0`.  A timeout (possible only while armed)
removes its listener and resolves its command with `false`. -/
def corrStep (s : CorrState) (e : CorrEvent) : CorrState × List CorrAction :=
  match e with
  | .setSnoozeDispatch id serial =>
    ({ listeners := s.listeners ++ [id]
       outcomes := mapSet s.outcomes id none
       timers := id :: s.timers },
     [.addResultListener id, .stationSnooze serial])
  | .stationCommandResult rc =>
    ({ listeners := []
       outcomes := s.listeners.foldl (fun m id => resolveCmd m id (rc == 0)) s.outcomes
       timers := s.timers.filter (fun t => !(s.listeners.contains t)) },
     [])
  | .commandTimeout id =>
    if id ∈ s.timers then
      ({ listeners := s.listeners.erase id
         outcomes := resolveCmd s.outcomes id false
         timers := s.timers.erase id },
       [])
    else (s, [])

/-- Run the correlator from the empty state, accumulating the action trace. -/
def corrRun (es : List CorrEvent) : CorrState × List CorrAction :=
  es.foldl
    (fun acc e =>
      ((corrStep acc.1 e).1, acc.2 ++ (corrStep acc.1 e).2))
    (⟨[], [], []⟩, [])

/-- Claim C1 as stated: while a prior command is still awaiting its result
or timeout (its one-shot listener is registered), a new `setSnooze` call
does not emit the underlying snooze dispatch. -/
def claimC1 : Prop :=
  ∀ (s : CorrState) (id : Nat) (serial : String),
    s.listeners ≠ [] →
    CorrAction.stationSnooze serial ∉ (corrStep s (.setSnoozeDispatch id serial)).2

/-! ## The per-command result wait of `setSnooze` (lines 439-452)

One dispatched command's `resultPromise`: a 10 s timer that resolves `false`
and removes the listener, raced against the next `"station command result"`
event, which resolves `return_code === 0`.  The wait is driven by the
time-ordered happenings after dispatch: the shared stream's result events
(offset milliseconds since dispatch, paired with their return code) with the
timer firing inserted at the 10 s mark. -/

/-- The 10 s bound of the `setTimeout` in `setSnooze`. -/
def snoozeTimeoutMs : Nat := 10000

/-- State of one command's result wait: the promise's slot, whether the
one-shot listener is still registered, whether the timer is still armed. -/
structure SnoozeWaitState where
  settled : Option Bool
  listenerOn : Bool
  timerOn : Bool
  deriving DecidableEq, Repr

/-- A happening observed by one command's result wait. -/
inductive SnoozeHappening
  | stationCommandResult (rc : Int)
  | timerFire
  deriving DecidableEq, Repr

/-- One step of the result wait, translated from the source: `onResult`
(live only while the listener is registered) clears the timer, removes
itself and resolves `rc == 0`; the timer (live only while armed) removes the
listener and resolves `false`. -/
def snoozeWaitStep (s : SnoozeWaitState) (h : SnoozeHappening) : SnoozeWaitState :=
  match h with
  | .stationCommandResult rc =>
    if s.listenerOn then
      { settled := if s.settled.isSome then s.settled else some (rc == 0)
        listenerOn := false
        timerOn := false }
    else s
  | .timerFire =>
    if s.timerOn then
      { settled := if s.settled.isSome then s.settled else some false
        listenerOn := false
        timerOn := false }
    else s

/-- The result events of the shared stream arriving before the 10 s mark. -/
def earlyResults (results : List (Nat × Int)) : List (Nat × Int) :=
  results.filter (fun p => decide (p.1 < snoozeTimeoutMs))

/-- The result events arriving at or after the 10 s mark. -/
def lateResults (results : List (Nat × Int)) : List (Nat × Int) :=
  results.filter (fun p => !(decide (p.1 < snoozeTimeoutMs)))

/-- Final state of one command's result wait, given the time-stamped result
events of the shared stream (milliseconds since dispatch, return code): the
events before the deadline, then the timer firing, then the rest. -/
def snoozeResultWait (results : List (Nat × Int)) : SnoozeWaitState :=
  (((earlyResults results).map (fun p => SnoozeHappening.stationCommandResult p.2))
      ++ SnoozeHappening.timerFire ::
        ((lateResults results).map (fun p => SnoozeHappening.stationCommandResult p.2))).foldl
    snoozeWaitStep ⟨none, true, true⟩

/-! ## Device detection events (lines 274-352 of `eufy-client.ts`) -/

/-- The device referenced by a raw signal (serial and display name). -/
structure DeviceRef where
  serial : String
  name : String
  deriving DecidableEq, Repr

/-- The `EufyEventType` union of the source. -/
inductive EufyEventType
  | motion
  | personDetected
  | petDetected
  | cryingDetected
  | soundDetected
  | rings
  | propertyChanged
  deriving DecidableEq, Repr

/-- The event-name strings used by the event node's filter. -/
def eventName : EufyEventType → String
  | .motion => "motion"
  | .personDetected => "personDetected"
  | .petDetected => "petDetected"
  | .cryingDetected => "cryingDetected"
  | .soundDetected => "soundDetected"
  | .rings => "rings"
  | .propertyChanged => "propertyChanged"

/-- The `value` payload of an `EufyEvent`: a plain boolean for simple
detections, `{detected, person}` for person detection, `{property, value}`
for property changes (the property value itself is opaque here). -/
inductive EventValue
  | boolVal (b : Bool)
  | personVal (detected : Bool) (person : String)
  | propVal (property : String) (value : String)
  deriving DecidableEq, Repr

/-- The `EufyEvent` structure emitted on the `"deviceEvent"` channel. -/
structure EufyEvent where
  event : EufyEventType
  device : String
  deviceName : String
  value : EventValue
  timestamp : Nat
  deriving DecidableEq, Repr

/-- `emitDeviceEvent`: build the `EufyEvent` for a device signal (`now` is
the `new Date()` timestamp). -/
def emitDeviceEvent (event : EufyEventType) (device : DeviceRef)
    (value : EventValue) (now : Nat) : EufyEvent :=
  { event := event
    device := device.serial
    deviceName := device.name
    value := value
    timestamp := now }

/-- The raw device signals of the underlying client consumed by
`setupEventHandlers`. -/
inductive RawDeviceSignal
  | motionDetected (d : DeviceRef) (state : Bool)
  | personDetected (d : DeviceRef) (state : Bool) (person : String)
  | petDetected (d : DeviceRef) (state : Bool)
  | cryingDetected (d : DeviceRef) (state : Bool)
  | soundDetected (d : DeviceRef) (state : Bool)
  | rings (d : DeviceRef) (state : Bool)
  | propertyChanged (d : DeviceRef) (propName : String) (propValue : String)
  deriving DecidableEq, Repr

/-- The handlers of lines 274-333: every detection handler emits only when
`state` is truthy; the property-change handler emits unconditionally. -/
def handleDeviceSignal (sig : RawDeviceSignal) (now : Nat) : List EufyEvent :=
  match sig with
  | .motionDetected d st =>
    if st then [emitDeviceEvent .motion d (.boolVal st) now] else []
  | .personDetected d st person =>
    if st then [emitDeviceEvent .personDetected d (.personVal st person) now] else []
  | .petDetected d st =>
    if st then [emitDeviceEvent .petDetected d (.boolVal st) now] else []
  | .cryingDetected d st =>
    if st then [emitDeviceEvent .cryingDetected d (.boolVal st) now] else []
  | .soundDetected d st =>
    if st then [emitDeviceEvent .soundDetected d (.boolVal st) now] else []
  | .rings d st =>
    if st then [emitDeviceEvent .rings d (.boolVal st) now] else []
  | .propertyChanged d n v =>
    [emitDeviceEvent .propertyChanged d (.propVal n v) now]

/-- The detection state carried by a raw signal, `none` for the
unconditional property-change signal. -/
def signalState : RawDeviceSignal → Option Bool
  | .motionDetected _ st => some st
  | .personDetected _ st _ => some st
  | .petDetected _ st => some st
  | .cryingDetected _ st => some st
  | .soundDetected _ st => some st
  | .rings _ st => some st
  | .propertyChanged _ _ _ => none

/-- The domain event type corresponding to each raw signal. -/
def signalEventType : RawDeviceSignal → EufyEventType
  | .motionDetected _ _ => .motion
  | .personDetected _ _ _ => .personDetected
  | .petDetected _ _ => .petDetected
  | .cryingDetected _ _ => .cryingDetected
  | .soundDetected _ _ => .soundDetected
  | .rings _ _ => .rings
  | .propertyChanged _ _ _ => .propertyChanged

/-! ## Event node filter (`handleEvent` of the event node source) -/

/-- The filter state of one event node: the configured device and event
list, and the runtime overrides (`runtimeFilter`). -/
structure EventNodeFilter where
  device : String
  events : List String
  runtimeDevice : Option String
  runtimeEvents : Option (List String)
  deriving DecidableEq, Repr

/-- `this.runtimeFilter.device || this.device`: the runtime device wins
unless it is absent or the empty string (JavaScript falsiness). -/
def effectiveDevice (n : EventNodeFilter) : String :=
  match n.runtimeDevice with
  | some d => if d = "" then n.device else d
  | none => n.device

/-- `this.runtimeFilter.events || this.events`: any runtime array wins
(arrays are truthy in JavaScript, even empty ones). -/
def effectiveEvents (n : EventNodeFilter) : List String :=
  match n.runtimeEvents with
  | some es => es
  | none => n.events

/-- `handleEvent`'s filter decision: `true` iff the node sends the event. -/
def handleEventSends (n : EventNodeFilter) (ev : EufyEvent) : Bool :=
  if effectiveDevice n ≠ "" ∧ ev.device ≠ effectiveDevice n then false
  else if (effectiveEvents n).length > 0 ∧ eventName ev.event ∉ effectiveEvents n then
    false
  else true

end EufyModel

namespace EufyModel

/-! ## Helper lemmas about the Map embedding -/

theorem assocGet_mapSet_self {κ α : Type} [DecidableEq κ]
    (m : List (κ × α)) (k : κ) (v : α) :
    assocGet (mapSet m k v) k = some v := by
  induction m with
  | nil => simp [mapSet, assocGet]
  | cons p rest ih =>
    obtain ⟨k', v'⟩ := p
    by_cases h : k' = k
    · simp [mapSet, assocGet, h]
    · simp [mapSet, assocGet, h, ih]

theorem assocGet_mapSet_ne {κ α : Type} [DecidableEq κ]
    (m : List (κ × α)) (k k' : κ) (v : α) (h : k' ≠ k) :
    assocGet (mapSet m k v) k' = assocGet m k' := by
  induction m with
  | nil => simp [mapSet, assocGet, Ne.symm h]
  | cons p rest ih =>
    obtain ⟨k1, v1⟩ := p
    by_cases h1 : k1 = k
    · subst h1
      simp [mapSet, assocGet, Ne.symm h]
    · simp [mapSet, assocGet, h1, ih]

theorem assocGet_mapDelete_ne {κ α : Type} [DecidableEq κ]
    (m : List (κ × α)) (k k' : κ) (h : k' ≠ k) :
    assocGet (mapDelete m k) k' = assocGet m k' := by
  induction m with
  | nil => simp [mapDelete, assocGet]
  | cons p rest ih =>
    obtain ⟨k1, v1⟩ := p
    by_cases h1 : k1 = k
    · subst h1
      simp [mapDelete, assocGet, Ne.symm h]
    · simp [mapDelete, assocGet, h1, ih]

theorem assocGet_eq_none_of_not_mem {κ α : Type} [DecidableEq κ]
    (m : List (κ × α)) (k : κ) (h : k ∉ m.map Prod.fst) :
    assocGet m k = none := by
  induction m with
  | nil => rfl
  | cons p rest ih =>
    obtain ⟨k1, v1⟩ := p
    simp only [List.map_cons, List.mem_cons] at h
    push_neg at h
    have h1 : k1 ≠ k := fun hh => h.1 hh.symm
    simp [assocGet, h1, ih h.2]

theorem assocGet_mapDelete_self {κ α : Type} [DecidableEq κ]
    (m : List (κ × α)) (k : κ) (h : (m.map Prod.fst).Nodup) :
    assocGet (mapDelete m k) k = none := by
  induction m with
  | nil => rfl
  | cons p rest ih =>
    obtain ⟨k1, v1⟩ := p
    simp only [List.map_cons, List.nodup_cons] at h
    by_cases h1 : k1 = k
    · subst h1
      simpa [mapDelete] using assocGet_eq_none_of_not_mem rest k1 h.1
    · simp [mapDelete, assocGet, h1, ih h.2]

theorem settleOutcome_get_self (m : List (Nat × WaitOutcome)) (id : Nat)
    (o : WaitOutcome) (h : assocGet m id = some WaitOutcome.pending) :
    assocGet (settleOutcome m id o) id = some o := by
  simp [settleOutcome, h, assocGet_mapSet_self]

theorem settleOutcome_get_ne (m : List (Nat × WaitOutcome)) (id : Nat)
    (o : WaitOutcome) (id' : Nat) (h : id' ≠ id) :
    assocGet (settleOutcome m id o) id' = assocGet m id' := by
  unfold settleOutcome
  cases hm : assocGet m id with
  | none => rfl
  | some w =>
    cases w with
    | pending => exact assocGet_mapSet_ne m id id' o h
    | resolved => rfl
    | rejected => rfl

/-- Fold invariance of the snooze result wait: once the listener is removed
and the timer cleared, further happenings change nothing. -/
theorem snoozeFold_off (hs : List SnoozeHappening) (s : SnoozeWaitState)
    (h1 : s.listenerOn = false) (h2 : s.timerOn = false) :
    hs.foldl snoozeWaitStep s = s := by
  induction hs with
  | nil => rfl
  | cons hd tl ih =>
    have hstep : snoozeWaitStep s hd = s := by
      cases hd <;> simp [snoozeWaitStep, h1, h2]
    simp [List.foldl_cons, hstep, ih]

/-! ## Claim C2 -/

/-- Claim C2 is false on the code: in the run where waiters 0 and 1 both
register for station "S1" and then a single ready signal for "S1" arrives,
waiter 0 is pending on "S1" when the signal arrives, yet it is not resolved
by it — `waitForStation` stored waiter 1 in `stationReadyPromises` under
"S1", overwriting waiter 0's entry. -/
theorem stationConnect_not_all_waiters_resolved : ¬ claimC2 := by
  intro h
  exact absurd
    (h [.waitForStationRegister "S1" 0, .waitForStationRegister "S1" 1] "S1" 0
      (by decide) (by decide))
    (by decide)

/-- Claim C2 amended: a ready signal for a target resolves exactly the one
waiter currently stored in `stationReadyPromises` under that target — the
most recently registered one — and leaves every other waiter's outcome
unchanged. -/
theorem stationConnect_resolves_registered_waiter (s : TrackerState)
    (serial : String) (id : Nat)
    (hcur : assocGet s.stationReadyPromises serial = some id)
    (hp : assocGet s.outcomes id = some WaitOutcome.pending) :
    assocGet (trackerStep s (.stationConnect serial)).outcomes id
        = some WaitOutcome.resolved ∧
    ∀ id', id' ≠ id →
      assocGet (trackerStep s (.stationConnect serial)).outcomes id'
        = assocGet s.outcomes id' := by
  constructor
  · simp [trackerStep, hcur, settleOutcome_get_self _ _ _ hp]
  · intro id' hne
    simp [trackerStep, hcur, settleOutcome_get_ne _ _ _ _ hne]

/-- Concrete instance of the amended C2 theorem: a lone registered waiter is
resolved by the ready signal for its station. -/
theorem stationConnect_resolves_registered_waiter_witness :
    assocGet (trackerStep (trackerRun [.waitForStationRegister "S1" 7])
        (.stationConnect "S1")).outcomes 7 = some WaitOutcome.resolved :=
  (stationConnect_resolves_registered_waiter
    (trackerRun [.waitForStationRegister "S1" 7]) "S1" 7 (by decide) (by decide)).1

/-! ## Claim C3 -/

/-- Claim C3 is false on the code: with waiters 0 and 1 both registered for
"S1" (waiter 1 holding the map entry), the firing of waiter 0's timeout
executes `stationReadyPromises.delete("S1")` and thereby removes waiter 1's
registration, although waiter 1 is a different pending waiter. -/
theorem stationTimeout_clobbers_other_waiter : ¬ claimC3 := by
  intro h
  exact absurd
    (h [.waitForStationRegister "S1" 0, .waitForStationRegister "S1" 1] "S1" 0 "S1" 1
        (by decide) (by decide) (by decide)).1
    (by decide)

/-- Claim C3 amended: a waiter's timeout rejects only that waiter and leaves
entries of other targets and outcomes of other waiters unchanged, but it
deletes the map entry stored under the serial it captured — even when that
entry meanwhile belongs to a later waiter on the same target. -/
theorem stationTimeout_scope (s : TrackerState) (serial : String) (id : Nat)
    (harm : id ∈ s.timers) :
    (∀ serial2, serial2 ≠ serial →
        assocGet (trackerStep s (.stationTimeout serial id)).stationReadyPromises serial2
          = assocGet s.stationReadyPromises serial2) ∧
    (∀ id2, id2 ≠ id →
        assocGet (trackerStep s (.stationTimeout serial id)).outcomes id2
          = assocGet s.outcomes id2) ∧
    ((s.stationReadyPromises.map Prod.fst).Nodup →
        assocGet (trackerStep s (.stationTimeout serial id)).stationReadyPromises serial
          = none) := by
  refine ⟨?_, ?_, ?_⟩
  · intro serial2 hne
    simp [trackerStep, harm, assocGet_mapDelete_ne _ _ _ hne]
  · intro id2 hne
    simp [trackerStep, harm, settleOutcome_get_ne _ _ _ _ hne]
  · intro hnd
    simp [trackerStep, harm, assocGet_mapDelete_self _ _ hnd]

/-- Concrete instance of the amended C3 theorem: waiter 0's timeout on "S1"
leaves the registration of waiter 1 on the distinct station "S2" intact. -/
theorem stationTimeout_scope_witness :
    assocGet (trackerStep
        (trackerRun [.waitForStationRegister "S1" 0, .waitForStationRegister "S2" 1])
        (.stationTimeout "S1" 0)).stationReadyPromises "S2"
      = assocGet (trackerRun [.waitForStationRegister "S1" 0,
          .waitForStationRegister "S2" 1]).stationReadyPromises "S2" :=
  ((stationTimeout_scope
      (trackerRun [.waitForStationRegister "S1" 0, .waitForStationRegister "S2" 1])
      "S1" 0 (by decide)).1) "S2" (by decide)

/-! ## Claim C4 -/

/-- Claim C4 is false on the code: `connect()` invoked while `connecting` is
set returns immediately with success (`return;` fulfils with `undefined`),
here shown against an in-flight environment whose attempt times out and
fails — the caller does not observe the in-flight result. -/
theorem connect_while_connecting_ignores_inflight_result : ¬ claimC4 := by
  intro h
  exact absurd (h.1 mgrConnecting .timeout rfl) (by decide)

/-- Claim C4 amended: `connect()` while a connect is in flight returns an
immediate unconditional success, ignoring the in-flight attempt's outcome;
`connect()` while connected (with the client initialized) is a no-op
success. -/
theorem connect_early_return_success (s : ManagerState) (env : ConnectEnv) :
    (s.connecting = true → connect s env = (.success, s)) ∧
    (s.connecting = false → s.client.isSome = true → s.status.connected = true →
      connect s env = (.success, s)) := by
  constructor
  · intro h
    simp [connect, connectBegin, h]
  · intro h1 h2 h3
    simp [connect, connectBegin, h1, h2, h3]

/-- Concrete instance of the amended C4 theorem: with the `connecting` flag
up, `connect` returns success and changes nothing, whatever the in-flight
attempt will do. -/
theorem connect_early_return_success_witness :
    connect mgrConnecting ConnectEnv.timeout = (ConnectResult.success, mgrConnecting) :=
  (connect_early_return_success mgrConnecting ConnectEnv.timeout).1 rfl

/-! ## Claim C5 -/

/-- Claim C5 is false on the code: `close()` on a manager with a pending
readiness waiter leaves that waiter pending with its timer armed — nothing
in `close()` touches `stationReadyPromises` or any timer. -/
theorem close_leaves_pending_waiter : ¬ claimC5 := by
  intro h
  exact absurd (h mgrPending 0 (by decide)).1 (by decide)

/-- Claim C5 amended: `close()` disposes the client reference and resets the
status flags and station list, but cancels nothing — the waiter bookkeeping
(registrations, outcomes, timers) is untouched, so pending waits are left to
their own timeouts. -/
theorem close_resets_status_keeps_waiters (s : ManagerState) :
    (close s).tracker = s.tracker ∧
    (close s).client = none ∧
    (close s).status.connected = false ∧
    (close s).status.cloudConnected = false ∧
    (close s).status.pushConnected = false ∧
    (close s).status.stations = [] :=
  ⟨rfl, rfl, rfl, rfl, rfl, rfl⟩

/-! ## Claim C6 -/

/-- Claim C6 is false on the code: on a manager whose client is initialized
and with no challenge ever requested, `connectWith2FA` forwards the
submitted code to the underlying client instead of failing with an
invalid-state error — the code checks only that the client exists. -/
theorem connectWith2FA_forwards_without_challenge : ¬ claimC6 := by
  intro h
  exact h mgrClient "123456" rfl "123456" rfl

/-- Claim C6 amended: submitting a two-factor code or captcha solution fails
only when the underlying client is uninitialized ("Client not initialized");
with an initialized client the solution is forwarded unconditionally,
whether or not a challenge is pending, and no state is mutated either way. -/
theorem connectWith2FA_client_guard_only (s : ManagerState)
    (code captchaId captchaText : String) :
    (s.client = none →
      connectWith2FA s code = Except.error "Client not initialized" ∧
      connectWithCaptcha s captchaId captchaText
        = Except.error "Client not initialized") ∧
    (s.client.isSome = true →
      connectWith2FA s code = Except.ok code ∧
      connectWithCaptcha s captchaId captchaText = Except.ok (captchaId, captchaText)) := by
  constructor
  · intro h
    simp [connectWith2FA, connectWithCaptcha, h]
  · intro h
    obtain ⟨u, hu⟩ := Option.isSome_iff_exists.mp h
    simp [connectWith2FA, connectWithCaptcha, hu]

/-- Concrete instance of the amended C6 theorem: with a client present and
no challenge pending, the code is forwarded. -/
theorem connectWith2FA_client_guard_only_witness :
    connectWith2FA mgrClient "111111" = Except.ok "111111" :=
  ((connectWith2FA_client_guard_only mgrClient "111111" "cid" "ctext").2 rfl).1

/-! ## Claim C10 -/

/-- Claim C10: after a `connect()` call entered from a quiescent state
settles — fulfilment or rejection — the `connecting` flag is false again
(the `finally` block), and when the attempt failed from a disconnected
state, a subsequent `connect()` passes both guards and starts a fresh
attempt rather than being short-circuited. -/
theorem connect_resets_connecting_flag (s : ManagerState) (env : ConnectEnv)
    (h1 : s.connecting = false) :
    (connect s env).2.connecting = false ∧
    (s.status.connected = false → (connect s env).1 ≠ ConnectResult.success →
      (connectBegin (connect s env).2).isSome = true) := by
  by_cases h2 : s.client.isSome && s.status.connected
  · have heq : connect s env = (.success, s) := by
      simp [connect, connectBegin, h1, h2]
    rw [heq]
    exact ⟨h1, fun _ hne => absurd rfl hne⟩
  · have heq : connect s env = connectFinally (connectTryBody { s with connecting := true } env) := by
      simp [connect, connectBegin, h1, h2]
    cases env with
    | initFail msg =>
      rw [heq]
      refine ⟨rfl, ?_⟩
      intro hconn _
      simp [connectBegin, connectFinally, connectTryBody, hconn]
    | ack =>
      rw [heq]
      refine ⟨rfl, ?_⟩
      intro _ hne
      exact absurd rfl hne
    | connError msg =>
      rw [heq]
      refine ⟨rfl, ?_⟩
      intro hconn _
      simp [connectBegin, connectFinally, connectTryBody, hconn]
    | timeout =>
      rw [heq]
      refine ⟨rfl, ?_⟩
      intro hconn _
      simp [connectBegin, connectFinally, connectTryBody, hconn]

/-- Concrete instance of the C10 theorem: a fresh manager whose first
attempt times out ends with `connecting` down, and the next `connect()`
starts a fresh attempt. -/
theorem connect_resets_connecting_flag_witness :
    (connect mgr0 ConnectEnv.timeout).2.connecting = false ∧
    (connectBegin (connect mgr0 ConnectEnv.timeout).2).isSome = true :=
  ⟨(connect_resets_connecting_flag mgr0 ConnectEnv.timeout rfl).1,
   (connect_resets_connecting_flag mgr0 ConnectEnv.timeout rfl).2 rfl (by decide)⟩

/-! ## Claim C1 -/

/-- Claim C1 is contradicted by the code (the spec flags this as a latent
race in the source and mandates serialization): while command 1's one-shot
result listener is still registered (its result pending), a second
`setSnooze` dispatch for command 2 on the same session emits the underlying
snooze immediately; a single `"station command result"` event then fires
both listeners and resolves both commands with the same outcome. -/
theorem setSnooze_concurrent_dispatch_race :
    ¬ claimC1 ∧
    (corrRun [.setSnoozeDispatch 1 "ST1", .setSnoozeDispatch 2 "ST1",
        .stationCommandResult 0]).2
      = [CorrAction.addResultListener 1, CorrAction.stationSnooze "ST1",
         CorrAction.addResultListener 2, CorrAction.stationSnooze "ST1"] ∧
    assocGet (corrRun [.setSnoozeDispatch 1 "ST1",
        .setSnoozeDispatch 2 "ST1"]).1.outcomes 1 = some none ∧
    assocGet (corrRun [.setSnoozeDispatch 1 "ST1", .setSnoozeDispatch 2 "ST1",
        .stationCommandResult 0]).1.outcomes 1 = some (some true) ∧
    assocGet (corrRun [.setSnoozeDispatch 1 "ST1", .setSnoozeDispatch 2 "ST1",
        .stationCommandResult 0]).1.outcomes 2 = some (some true) := by
  refine ⟨?_, by decide, by decide, by decide, by decide⟩
  intro h
  exact h ⟨[1], [(1, none)], [1]⟩ 2 "ST1" (by decide) (by decide)

/-! ## Claim C7 -/

/-- Claim C7: a dispatched command's result wait uses the bounded default
timeout of 10 seconds; it always concludes with a settled outcome; when no
result event arrives on the shared stream before the deadline the command is
reported failed (`success = false`); and the first in-time result event
settles it with `return_code == 0`. -/
theorem setSnooze_result_wait_bounded (results : List (Nat × Int)) :
    snoozeTimeoutMs = 10000 ∧
    (snoozeResultWait results).settled.isSome = true ∧
    (earlyResults results = [] → (snoozeResultWait results).settled = some false) ∧
    (∀ t rc rest, earlyResults results = (t, rc) :: rest →
      (snoozeResultWait results).settled = some (rc == 0)) := by
  cases he : earlyResults results with
  | nil =>
    have hw : snoozeResultWait results = ⟨some false, false, false⟩ := by
      unfold snoozeResultWait
      rw [he]
      simp only [List.map_nil, List.nil_append, List.foldl_cons]
      rw [show snoozeWaitStep ⟨none, true, true⟩ SnoozeHappening.timerFire
            = ⟨some false, false, false⟩ from rfl]
      exact snoozeFold_off _ _ rfl rfl
    refine ⟨rfl, ?_, ?_, ?_⟩
    · rw [hw]; rfl
    · intro _
      rw [hw]
    · intro t rc rest hcon
      simp at hcon
  | cons p rest0 =>
    have hw : snoozeResultWait results = ⟨some (p.2 == 0), false, false⟩ := by
      unfold snoozeResultWait
      rw [he]
      simp only [List.map_cons, List.cons_append, List.foldl_cons]
      rw [show snoozeWaitStep ⟨none, true, true⟩ (SnoozeHappening.stationCommandResult p.2)
            = ⟨some (p.2 == 0), false, false⟩ from rfl]
      exact snoozeFold_off _ _ rfl rfl
    refine ⟨rfl, ?_, ?_, ?_⟩
    · rw [hw]; rfl
    · intro hcon
      simp at hcon
    · intro t rc rest hcon
      injection hcon with hp hrest
      rw [hw, hp]

/-- Concrete instances of the C7 theorem: no result within 10 s settles the
command as failed; a result with code 0 at 500 ms settles it accordingly. -/
theorem setSnooze_result_wait_bounded_witness :
    (snoozeResultWait ([] : List (Nat × Int))).settled = some false ∧
    (snoozeResultWait [((500 : Nat), (0 : Int))]).settled = some ((0 : Int) == 0) :=
  ⟨(setSnooze_result_wait_bounded []).2.2.1 rfl,
   (setSnooze_result_wait_bounded [(500, 0)]).2.2.2 500 0 [] (by decide)⟩

/-! ## Claim C8 -/

/-- Claim C8: the event node delivers an event exactly when the effective
device filter is absent (empty) or equal to the event's device id, and the
effective event-type list is empty or contains the event's type.  In
particular a filter of `|"motion"|` never delivers a `personDetected` event,
and the empty filter delivers everything. -/
theorem handleEvent_filter_characterization (n : EventNodeFilter) (ev : EufyEvent) :
    handleEventSends n ev = true ↔
      ((effectiveDevice n = "" ∨ ev.device = effectiveDevice n) ∧
       (effectiveEvents n = [] ∨ eventName ev.event ∈ effectiveEvents n)) := by
  unfold handleEventSends
  constructor
  · intro hs
    split_ifs at hs with hA hB
    push_neg at hA hB
    constructor
    · by_cases hd : effectiveDevice n = ""
      · exact Or.inl hd
      · exact Or.inr (hA hd)
    · by_cases hev : effectiveEvents n = []
      · exact Or.inl hev
      · exact Or.inr (hB (List.length_pos.mpr hev))
  · rintro ⟨hd, he⟩
    have hA : ¬(effectiveDevice n ≠ "" ∧ ev.device ≠ effectiveDevice n) := by
      rcases hd with h | h
      · rintro ⟨c1, _⟩
        exact c1 h
      · rintro ⟨_, c2⟩
        exact c2 h
    have hB : ¬((effectiveEvents n).length > 0 ∧
        eventName ev.event ∉ effectiveEvents n) := by
      rcases he with h | h
      · rintro ⟨c1, _⟩
        rw [h] at c1
        simp at c1
      · rintro ⟨_, c2⟩
        exact c2 h
    simp [hA, hB]

/-! ## Claim C9 -/

/-- Claim C9: a raw detection signal with a false state is suppressed (no
domain event at all); a true state yields exactly one event of the
corresponding type; a property-change signal yields exactly one event
unconditionally. -/
theorem deviceSignal_emission (sig : RawDeviceSignal) (now : Nat) :
    (signalState sig = some false → handleDeviceSignal sig now = []) ∧
    (signalState sig = some true →
      (handleDeviceSignal sig now).map EufyEvent.event = [signalEventType sig]) ∧
    (signalState sig = none →
      (handleDeviceSignal sig now).map EufyEvent.event = [signalEventType sig]) := by
  cases sig with
  | motionDetected d st =>
    cases st <;> simp [handleDeviceSignal, signalState, signalEventType, emitDeviceEvent]
  | personDetected d st person =>
    cases st <;> simp [handleDeviceSignal, signalState, signalEventType, emitDeviceEvent]
  | petDetected d st =>
    cases st <;> simp [handleDeviceSignal, signalState, signalEventType, emitDeviceEvent]
  | cryingDetected d st =>
    cases st <;> simp [handleDeviceSignal, signalState, signalEventType, emitDeviceEvent]
  | soundDetected d st =>
    cases st <;> simp [handleDeviceSignal, signalState, signalEventType, emitDeviceEvent]
  | rings d st =>
    cases st <;> simp [handleDeviceSignal, signalState, signalEventType, emitDeviceEvent]
  | propertyChanged d nm v =>
    simp [handleDeviceSignal, signalState, signalEventType, emitDeviceEvent]

/-- Concrete instances of the C9 theorem: a false motion signal is
suppressed; a true rings signal yields one `rings` event. -/
theorem deviceSignal_emission_witness :
    handleDeviceSignal (RawDeviceSignal.motionDetected ⟨"D1", "Door"⟩ false) 0 = [] ∧
    (handleDeviceSignal (RawDeviceSignal.rings ⟨"D1", "Door"⟩ true) 0).map EufyEvent.event
      = [EufyEventType.rings] :=
  ⟨(deviceSignal_emission (RawDeviceSignal.motionDetected ⟨"D1", "Door"⟩ false) 0).1 rfl,
   ((deviceSignal_emission (RawDeviceSignal.rings ⟨"D1", "Door"⟩ true) 0).2.1) rfl⟩

end EufyModel
